import Mathlib

/-!
# Verification of the radio "now playing" reconciliation and listener simulator

Shallow embedding of `src/main.py` of the radio-beta-generator repository.

Modelling conventions:
* Python strings are Lean `String`s.  `str.strip()` is `String.trim`;
  `str.split()` (split on whitespace, dropping empty pieces) is
  `String.split Char.isWhitespace` followed by filtering out `""`;
  `str.casefold()` and `str.lower()` are modelled as per-character ASCII
  lowercasing (`String.toLower`); the silence phrases compared against are
  already lowercase, accents included, so this only diverges from CPython on
  non-ASCII uppercase input, which no claim depends on.
* A BeautifulSoup document is reduced to the parts the code reads: an optional
  playlist table holding a list of rows, each row holding the optional text of
  its `cas` / `interpret` / `titul` spans (`None` when `row.find` misses).
  An *empty* `div#playlist_table` is falsy in BeautifulSoup (a `Tag` defines
  `__len__`), hence observationally identical to an absent table: both paths
  return `None`, so `none` covers both.
* A Selenium rendered view is reduced to an optional on-air block with two
  optional span texts.  `onair_block = none` models the region never appearing
  within the `WebDriverWait` bound, in which case `wait.until` raises
  `TimeoutException` — which `scrape_onair_dynamic` does *not* catch (its
  `try` only wraps the two inner `find_element` calls), so the embedding
  returns `Except.error`.
* `datetime.time` values are `PyTime` records (hour, minute, second,
  microsecond, tzinfo string).  UTC instants are opaque `Nat` tokens.
* `random.randint` is passed in as an oracle `Int → Int → Int`; theorems that
  need the inclusive-range contract of `randint` take it as a hypothesis.
* Python `int` arithmetic is `Int`.
-/

/-- Configuration `LOCAL_TZ = ZoneInfo("Europe/Bratislava")`, modelled by its key. -/
def LOCAL_TZ : String := "Europe/Bratislava"

/-- Configuration `RADIO_NAME = "Beta"`. -/
def RADIO_NAME : String := "Beta"

/-- A `datetime.time` value: hour, minute, second, microsecond and the tzinfo
it is tagged with (`""` for a naive time). -/
structure PyTime where
  hour : Nat
  minute : Nat
  second : Nat
  microsecond : Nat
  tz : String
deriving DecidableEq, Repr

/-- Strip leading and trailing whitespace from a character list (Python
`str.strip()`). -/
def trimChars (cs : List Char) : List Char :=
  ((cs.dropWhile Char.isWhitespace).reverse.dropWhile Char.isWhitespace).reverse

/-- Python `str.strip()`.  (Core `String.trim` does not reduce in the kernel,
so it is re-implemented over the character list.) -/
def pyStrip (s : String) : String :=
  ⟨trimChars s.data⟩

/-- Rejoin whitespace-split words with single spaces (the `" ".join` step). -/
def joinSpace : List (List Char) → List Char
  | [] => []
  | [w] => w
  | w :: ws => w ++ ' ' :: joinSpace ws

/-- Python `" ".join(s.strip().casefold().split())` (and the variant with
`.lower()`): lowercase, split on whitespace dropping empty pieces, re-join
with single spaces.  The leading `strip` is redundant because `split()`
already drops boundary empties. -/
def pyNorm (s : String) : String :=
  ⟨joinSpace (((s.data.map Char.toLower).splitOnP Char.isWhitespace).filter
    (fun w => !w.isEmpty))⟩

/-- Python `s.split(":")`. -/
def pySplitColon (s : String) : List String :=
  (s.data.splitOn ':').map (fun cs => ⟨cs⟩)

/-- Digits-only decimal reading used by `pyIntOfString`. -/
def pyDigits (cs : List Char) : Option Nat :=
  if cs = [] then none
  else if cs.all Char.isDigit then
    some (cs.foldl (fun n c => n * 10 + (c.toNat - 48)) 0)
  else none

/-- Python `int(s)`: optional surrounding whitespace, optional sign, decimal
digits; any other input raises `ValueError`, which the callers below catch,
so the embedding returns `none` there. -/
def pyIntOfString (s : String) : Option Int :=
  match trimChars s.data with
  | '+' :: rest => (pyDigits rest).map (fun n => (n : Int))
  | '-' :: rest => (pyDigits rest).map (fun n => -(n : Int))
  | cs => (pyDigits cs).map (fun n => (n : Int))

/-- One `a.datum_cas_skladba` playlist row: the text of its `span.cas`,
`span.interpret` and `span.titul` children, each `none` when `row.find`
returns no element. -/
structure PlaylistRow where
  time_span : Option String
  artist_span : Option String
  title_span : Option String
deriving DecidableEq, Repr

/-- The static document as read by the playlist lookup: `none` when
`soup.find('div', id='playlist_table')` yields nothing (or an empty, hence
falsy, tag); otherwise the list of `a.datum_cas_skladba` rows in document
order. -/
structure Soup where
  playlist_table : Option (List PlaylistRow)
deriving DecidableEq, Repr

/-- The body of the `try:` around `time(int(hh), int(mm), tzinfo=LOCAL_TZ)`:
split the (already stripped) time text on `":"`, keep the first two pieces
(`[:2]` — trailing seconds ignored), unpack into exactly two names
(`ValueError` if only one piece), convert with `int`, and build the
`datetime.time`, which itself raises unless `0 ≤ h ≤ 23` and `0 ≤ m ≤ 59`.
Every raise is caught by the caller, hence `none`. -/
def parsePlaylistTime (s : String) : Option PyTime :=
  match (pySplitColon s).take 2 with
  | [hh, mm] => do
    let h ← pyIntOfString hh
    let m ← pyIntOfString mm
    if 0 ≤ h ∧ h ≤ 23 ∧ 0 ≤ m ∧ m ≤ 59 then
      some ⟨h.toNat, m.toNat, 0, 0, LOCAL_TZ⟩
    else none
  | _ => none

/-- The `for row in song_rows[:5]` loop body of
`try_get_start_time_from_playlist` (the slice is applied by the caller):
skip a row missing any of its three spans; on the first row whose normalized
artist and title both equal the normalized lookup values, parse its time text
and return the result — a parse failure returns `None` without scanning
further rows. -/
def scanRows (n_artist n_title : String) : List PlaylistRow → Option PyTime
  | [] => none
  | row :: rest =>
    match row.time_span, row.artist_span, row.title_span with
    | some ts, some a, some t =>
      if pyNorm a = n_artist ∧ pyNorm t = n_title then
        parsePlaylistTime (pyStrip ts)
      else scanRows n_artist n_title rest
    | _, _, _ => scanRows n_artist n_title rest

/-- Function `try_get_start_time_from_playlist(soup, artist, title)`: `None` when the
playlist table is absent or has no rows; otherwise scan the first five rows
for an exact normalized match. -/
def try_get_start_time_from_playlist (soup : Soup) (artist title : String) :
    Option PyTime :=
  match soup.playlist_table with
  | none => none
  | some song_rows =>
    if song_rows = [] then none
    else scanRows (pyNorm artist) (pyNorm title) (song_rows.take 5)

/-- A row the loop does not `continue` past: all three spans present and both
normalized fields exactly equal to the normalized lookup fields. -/
def rowMatches (n_artist n_title : String) (row : PlaylistRow) : Bool :=
  match row.time_span, row.artist_span, row.title_span with
  | some _, some a, some t => pyNorm a = n_artist && pyNorm t = n_title
  | _, _, _ => false

/-- The time a matched row contributes: its (stripped) time text parsed as
`HH:MM`. -/
def rowTime (row : PlaylistRow) : Option PyTime :=
  row.time_span.bind (fun ts => parsePlaylistTime (pyStrip ts))

theorem scanRows_eq_find (n_artist n_title : String) (l : List PlaylistRow) :
    scanRows n_artist n_title l
      = (l.find? (rowMatches n_artist n_title)).bind rowTime := by
  induction l with
  | nil => rfl
  | cons row rest ih =>
    rcases row with ⟨ot, oa, oti⟩
    rcases ot with _ | ts <;> rcases oa with _ | a <;> rcases oti with _ | t <;>
      simp only [scanRows, rowMatches, List.find?, ih]
    by_cases hmat : pyNorm a = n_artist ∧ pyNorm t = n_title
    · simp [hmat, rowTime]
    · have : (pyNorm a = n_artist && pyNorm t = n_title) = false := by
        rcases Decidable.not_and_iff_or_not.mp hmat with h | h <;> simp [h]
      simp [hmat, this, ih]

example : pyNorm "  Hello   WORLD " = "hello world" := by decide
example : parsePlaylistTime "14:05:33" = some ⟨14, 5, 0, 0, LOCAL_TZ⟩ := by decide
example : parsePlaylistTime "14" = none := by decide
example : parsePlaylistTime "xx:05" = none := by decide
example : parsePlaylistTime "25:05" = none := by decide
example : pyIntOfString " +07 " = some 7 := by decide
example : pyIntOfString "-3" = some (-3) := by decide
example : pyIntOfString "1_2" = none := by decide

/-- The text of the on-air block's `span.interpret` / `span.titul` children;
`none` models `find_element` raising `NoSuchElementException` (caught by the
`try` inside `scrape_onair_dynamic`). -/
structure OnAirBlock where
  interpret : Option String
  titul : Option String
deriving DecidableEq, Repr

/-- The rendered page as read by the scraper: `none` for `onair_block` models
the `div.radio_profil_play` region never appearing within the
`WebDriverWait(driver, REQUEST_TIMEOUT_SEC)` bound, in which case
`wait.until` raises `TimeoutException` — uncaught inside
`scrape_onair_dynamic`. -/
structure RenderedView where
  onair_block : Option OnAirBlock
deriving DecidableEq, Repr

/-- The exceptions `now_playing` catches around the Selenium steps. -/
inductive SeleniumError where
  | timeout
  | webdriver
deriving DecidableEq, Repr

/-- The extracted candidate, `{"interpreters": ..., "title": ...}`. -/
structure OnAirCandidate where
  interpreters : String
  title : String
deriving DecidableEq, Repr

/-- The fixed silence phrases of `scrape_onair_dynamic`. -/
def silence_patterns : List String :=
  ["nehrá žiadna pesnička", "je dočasne nedostupná"]

/-- Function `scrape_onair_dynamic(driver)`.  `Except.error` models an exception
escaping to the caller (the block never located within the wait);
`Except.ok none` models the `return None` paths (missing sub-element, silence
phrase, or an empty stripped field); `Except.ok (some c)` is a candidate. -/
def scrape_onair_dynamic (view : RenderedView) :
    Except SeleniumError (Option OnAirCandidate) :=
  match view.onair_block with
  | none => .error .timeout
  | some blk =>
    match blk.interpret, blk.titul with
    | some i, some t =>
      let interpret_txt := pyStrip i
      let titul_txt := pyStrip t
      let t_norm := pyNorm titul_txt
      if t_norm ∈ silence_patterns ∨ interpret_txt = "" ∨ titul_txt = "" then
        .ok none
      else .ok (some ⟨interpret_txt, titul_txt⟩)
    | _, _ => .ok none

/-- The `Song` response model (fields as in the pydantic model; `timestamp`
is the opaque UTC instant token). -/
structure Song where
  radio : String
  interpreters : String
  title : String
  start_time : PyTime
  timestamp : Nat
deriving DecidableEq, Repr

/-- The `Silence` response model. -/
structure Silence where
  radio : String
  is_playing : Bool
  message : String
  timestamp : Nat
deriving DecidableEq, Repr

/-- The response union `ResponseModel = Union[Song, Silence]`. -/
inductive ResponseModel where
  | song (s : Song)
  | silence (s : Silence)
deriving DecidableEq, Repr

/-- Whether a response is the `Song` variant. -/
def isSong : ResponseModel → Bool
  | .song _ => true
  | .silence _ => false

/-- The process-wide mutable state: `is_radio_playing` (line 31) and the
simulator's rolling `last_listeners` (line 176). -/
structure AppState where
  is_radio_playing : Bool
  last_listeners : Int
deriving DecidableEq, Repr

/-- Module-level initial values: `is_radio_playing = True`,
`last_listeners = 0`. -/
def initial_state : AppState :=
  { is_radio_playing := true, last_listeners := 0 }

/-- Endpoint handler `now_playing()`.  Inputs stand for the environment the handler reads:
`fetch` is the outcome of `_build_driver()` + `driver.get(URL)` (an
exception there, or the rendered view handed to the scraper), `soup` the
outcome of `fetch_html_static(URL)`, `now_local` the value of
`datetime.now(LOCAL_TZ).time()`, `ts_utc` the UTC instant captured at entry.
Returns the response together with the updated shared state. -/
def now_playing (fetch : Except SeleniumError RenderedView) (soup : Option Soup)
    (now_local : PyTime) (ts_utc : Nat) (st : AppState) :
    ResponseModel × AppState :=
  match (match fetch with
         | .error e => .error e
         | .ok view => scrape_onair_dynamic view :
          Except SeleniumError (Option OnAirCandidate)) with
  | .ok none =>
    (.silence ⟨RADIO_NAME, false, "Nothing is playing right now.", ts_utc⟩,
     { st with is_radio_playing := false })
  | .error _ =>
    (.silence ⟨RADIO_NAME, false, "Upstream page unavailable.", ts_utc⟩,
     { st with is_radio_playing := false })
  | .ok (some onair) =>
    let start_t :=
      match soup with
      | some s => try_get_start_time_from_playlist s onair.interpreters onair.title
      | none => none
    let start_t :=
      match start_t with
      | some t => t
      | none =>
        { hour := now_local.hour, minute := now_local.minute,
          second := 0, microsecond := 0, tz := LOCAL_TZ }
    (.song ⟨RADIO_NAME, onair.interpreters, onair.title, start_t, ts_utc⟩,
     { st with is_radio_playing := true })

/-- The `ListenerStats` model. -/
structure ListenerStats where
  listeners : Int
  timestamp : Nat
deriving DecidableEq, Repr

/-- Function `get_hourly_base_range(hour)` — the fixed hourly band table. -/
def get_hourly_base_range (hour : Nat) : Int × Int :=
  if 0 ≤ hour ∧ hour ≤ 5 then (10, 40)
  else if 6 ≤ hour ∧ hour ≤ 8 then (100, 150)
  else if 9 ≤ hour ∧ hour ≤ 11 then (80, 130)
  else if 12 ≤ hour ∧ hour ≤ 14 then (70, 110)
  else if 15 ≤ hour ∧ hour ≤ 18 then (120, 180)
  else if 19 ≤ hour ∧ hour ≤ 22 then (50, 90)
  else if hour = 23 then (30, 60)
  else (50, 80)

/-- Function `generate_listeners_stats()`.  `randint` is the `random.randint` oracle,
`current_hour` the value of `datetime.now(LOCAL_TZ).hour`, `ts_utc` the UTC
instant.  On the walk branch the source computes
`int((max_base - min_base) * 0.15) + 2`: `int` truncates the positive IEEE
double toward zero, and for every band width the table produces
(30, 40, 50, 60 — products 4.5, 6.0, 7.5, 9.0, each exactly representable
after rounding) this equals exact integer division `* 15 / 100`, which is how
it is embedded. -/
def generate_listeners_stats (randint : Int → Int → Int) (current_hour : Nat)
    (ts_utc : Nat) (st : AppState) : ListenerStats × AppState :=
  if !st.is_radio_playing then
    (⟨0, ts_utc⟩, { st with last_listeners := 0 })
  else
    let bounds := get_hourly_base_range current_hour
    let min_base := bounds.1
    let max_base := bounds.2
    let new_listeners :=
      if st.last_listeners = 0 then randint min_base max_base
      else
        let max_change := (max_base - min_base) * 15 / 100 + 2
        let change := randint (-max_change) max_change
        st.last_listeners + change
    let clamped := max min_base (min new_listeners max_base)
    (⟨clamped, ts_utc⟩, { st with last_listeners := clamped })

/-- Transcription of the specification's §4.4 tick description, for the
refinement claim about the simulator: if not playing, reset to 0 and return
0; else look up the hour's band; on rolling state 0 sample uniformly within
`[min, max]`; otherwise `max_change = floor((max - min) * 0.15) + 2` (here
the exact rational floor), delta uniform in `[-max_change, max_change]`,
add to the previous value and clamp into `[min, max]`; persist and return. -/
def generate_listeners_stats_spec (randint : Int → Int → Int)
    (current_hour : Nat) (ts_utc : Nat) (st : AppState) :
    ListenerStats × AppState :=
  if !st.is_radio_playing then
    (⟨0, ts_utc⟩, { st with last_listeners := 0 })
  else
    let bounds := get_hourly_base_range current_hour
    let min_base := bounds.1
    let max_base := bounds.2
    let v :=
      if st.last_listeners = 0 then randint min_base max_base
      else
        let max_change := ⌊((max_base - min_base : Int) : ℚ) * (15 / 100)⌋ + 2
        let delta := randint (-max_change) max_change
        max min_base (min (st.last_listeners + delta) max_base)
    (⟨v, ts_utc⟩, { st with last_listeners := v })

theorem hourly_range_le (h : Nat) :
    (get_hourly_base_range h).1 ≤ (get_hourly_base_range h).2 := by
  unfold get_hourly_base_range
  split_ifs <;> norm_num

theorem max_change_floor_eq (h : Nat) :
    ⌊(((get_hourly_base_range h).2 - (get_hourly_base_range h).1 : Int) : ℚ)
        * (15 / 100)⌋
      = ((get_hourly_base_range h).2 - (get_hourly_base_range h).1) * 15 / 100 := by
  unfold get_hourly_base_range
  split_ifs <;> norm_num

/-- C1: the process-wide `is_radio_playing` flag defaults to `true`; after a
resolution it is `true` exactly when the resolution returned a `Song` (and
`false` on either `Silence`); and the only other state-touching operation,
the simulator tick, never changes it. -/
theorem playing_flag_default_and_tracks_resolution :
    initial_state.is_radio_playing = true
    ∧ (∀ (fetch : Except SeleniumError RenderedView) (soup : Option Soup)
        (now_local : PyTime) (ts : Nat) (st : AppState),
        (now_playing fetch soup now_local ts st).2.is_radio_playing = true
          ↔ isSong (now_playing fetch soup now_local ts st).1 = true)
    ∧ (∀ (randint : Int → Int → Int) (hour ts : Nat) (st : AppState),
        (generate_listeners_stats randint hour ts st).2.is_radio_playing
          = st.is_radio_playing) := by
  refine ⟨rfl, ?_, ?_⟩
  · intro fetch soup now_local ts st
    rcases fetch with e | view
    · simp [now_playing, isSong]
    · rcases hsc : scrape_onair_dynamic view with e | oc
      · simp [now_playing, hsc, isSong]
      · rcases oc with _ | c <;> simp [now_playing, hsc, isSong]
  · intro randint hour ts st
    cases hp : st.is_radio_playing <;>
      simp [generate_listeners_stats, hp]

/-- C2: a tick taken while playing returns a count inside the hour's band
(whatever values the `randint` oracle produces — the clamp guarantees it),
and a tick taken while not playing returns exactly 0. -/
theorem tick_band_and_silence (randint : Int → Int → Int) (hour : Nat)
    (last : Int) (ts : Nat) (hh : hour ≤ 23) :
    ((get_hourly_base_range hour).1
        ≤ (generate_listeners_stats randint hour ts ⟨true, last⟩).1.listeners
      ∧ (generate_listeners_stats randint hour ts ⟨true, last⟩).1.listeners
        ≤ (get_hourly_base_range hour).2)
    ∧ (generate_listeners_stats randint hour ts ⟨false, last⟩).1.listeners = 0 := by
  refine ⟨⟨?_, ?_⟩, rfl⟩
  · exact le_max_left _ _
  · exact max_le (hourly_range_le hour) (min_le_right _ _)

/-- Witness for `tick_band_and_silence` at hour 10, rolling state 95. -/
theorem tick_band_and_silence_witness :
    (10 : Nat) ≤ 23
    ∧ (((get_hourly_base_range 10).1
          ≤ (generate_listeners_stats (fun a b => (a + b) / 2) 10 0
              ⟨true, 95⟩).1.listeners
        ∧ (generate_listeners_stats (fun a b => (a + b) / 2) 10 0
              ⟨true, 95⟩).1.listeners
          ≤ (get_hourly_base_range 10).2)
      ∧ (generate_listeners_stats (fun a b => (a + b) / 2) 10 0
            ⟨false, 95⟩).1.listeners = 0) :=
  ⟨by decide, tick_band_and_silence (fun a b => (a + b) / 2) 10 95 0 (by decide)⟩

/-- C3: given the inclusive-range contract of `random.randint`, a playing
tick computes exactly what the specification describes: uniform sample on
rolling state 0, otherwise a delta of magnitude at most
`floor((max - min) * 0.15) + 2` added to the previous value and clamped into
the band, the result persisted and returned. -/
theorem tick_refines_spec_description (randint : Int → Int → Int)
    (hrand : ∀ a b : Int, a ≤ b → a ≤ randint a b ∧ randint a b ≤ b)
    (hour : Nat) (last : Int) (ts : Nat) :
    generate_listeners_stats randint hour ts ⟨true, last⟩
      = generate_listeners_stats_spec randint hour ts ⟨true, last⟩ := by
  have hle := hourly_range_le hour
  have hmc := max_change_floor_eq hour
  by_cases h0 : last = 0
  · obtain ⟨h1, h2⟩ := hrand _ _ hle
    simp only [generate_listeners_stats, generate_listeners_stats_spec, h0,
      if_true, Bool.not_true, Bool.false_eq_true, if_false, ite_true, ite_false]
    have hclamp :
        max (get_hourly_base_range hour).1
            (min (randint (get_hourly_base_range hour).1
                (get_hourly_base_range hour).2)
              (get_hourly_base_range hour).2)
          = randint (get_hourly_base_range hour).1
              (get_hourly_base_range hour).2 := by omega
    simp [hclamp]
  · simp only [generate_listeners_stats, generate_listeners_stats_spec, h0,
      Bool.not_true, Bool.false_eq_true, if_false, ite_false]
    push_cast at hmc
    simp [h0, hmc]

/-- Witness for `tick_refines_spec_description` at hour 7, rolling state
120, with the left-endpoint oracle. -/
theorem tick_refines_spec_description_witness :
    generate_listeners_stats (fun a _ => a) 7 0 ⟨true, 120⟩
      = generate_listeners_stats_spec (fun a _ => a) 7 0 ⟨true, 120⟩ :=
  tick_refines_spec_description (fun a _ => a)
    (fun a b h => ⟨le_refl a, h⟩) 7 120 0

/-- C4: a tick taken while not playing returns 0 and resets the rolling
state to 0; once playing again, the next tick takes the cold-start branch,
returning the uniform band sample itself rather than a walk from 0. -/
theorem silence_resets_then_cold_start (randint : Int → Int → Int)
    (hrand : ∀ a b : Int, a ≤ b → a ≤ randint a b ∧ randint a b ≤ b)
    (hour : Nat) (last : Int) (ts₁ ts₂ : Nat) :
    (generate_listeners_stats randint hour ts₁ ⟨false, last⟩).1.listeners = 0
    ∧ (generate_listeners_stats randint hour ts₁ ⟨false, last⟩).2.last_listeners = 0
    ∧ (generate_listeners_stats randint hour ts₂
          ⟨true, (generate_listeners_stats randint hour ts₁
            ⟨false, last⟩).2.last_listeners⟩).1.listeners
        = randint (get_hourly_base_range hour).1 (get_hourly_base_range hour).2 := by
  refine ⟨rfl, rfl, ?_⟩
  obtain ⟨h1, h2⟩ := hrand _ _ (hourly_range_le hour)
  show max (get_hourly_base_range hour).1
      (min (randint (get_hourly_base_range hour).1 (get_hourly_base_range hour).2)
        (get_hourly_base_range hour).2)
    = randint (get_hourly_base_range hour).1 (get_hourly_base_range hour).2
  omega

/-- Witness for `silence_resets_then_cold_start` at hour 16, previous
rolling state 150, with the left-endpoint oracle. -/
theorem silence_resets_then_cold_start_witness :
    (generate_listeners_stats (fun a _ => a) 16 3 ⟨false, 150⟩).1.listeners = 0
    ∧ (generate_listeners_stats (fun a _ => a) 16 3 ⟨false, 150⟩).2.last_listeners = 0
    ∧ (generate_listeners_stats (fun a _ => a) 16 4
          ⟨true, (generate_listeners_stats (fun a _ => a) 16 3
            ⟨false, 150⟩).2.last_listeners⟩).1.listeners
        = (fun (a : Int) (_ : Int) => a) (get_hourly_base_range 16).1
            (get_hourly_base_range 16).2 :=
  silence_resets_then_cold_start (fun a _ => a)
    (fun a b h => ⟨le_refl a, h⟩) 16 150 3 4

theorem parse_time_fields (s : String) (t : PyTime)
    (h : parsePlaylistTime s = some t) :
    t.tz = LOCAL_TZ ∧ t.second = 0 ∧ t.microsecond = 0 := by
  unfold parsePlaylistTime at h
  split at h
  · rename_i hh mm _
    rcases h1 : pyIntOfString hh with _ | hv
    · rw [h1] at h; simp at h
    · rcases h2 : pyIntOfString mm with _ | mv
      · rw [h1, h2] at h; simp at h
      · rw [h1, h2] at h
        simp only [Option.bind_eq_bind, Option.some_bind] at h
        split at h
        · rcases Option.some.inj h with rfl
          exact ⟨rfl, rfl, rfl⟩
        · simp at h
  · simp at h

theorem take_five_ne_nil {rows : List PlaylistRow} (he : rows ≠ []) :
    rows.take 5 ≠ [] := by
  cases rows with
  | nil => exact absurd rfl he
  | cons r rest => simp

/-- C5: the playlist lookup inspects only the first five rows; on a present
table with rows it returns exactly the parsed time of the *first* row among
those five whose normalized artist and title both equal the normalized
lookup values (`rowMatches` is exact equality of `pyNorm`-normalized
fields); the time parse looks only at the first two `":"`-separated pieces
(trailing seconds ignored), and every parsed time is tagged with the
station's fixed local time zone and has zero seconds. -/
theorem playlist_lookup_characterization :
    (∀ (rows : List PlaylistRow) (artist title : String),
        try_get_start_time_from_playlist ⟨some rows⟩ artist title
          = try_get_start_time_from_playlist ⟨some (rows.take 5)⟩ artist title)
    ∧ (∀ (rows : List PlaylistRow) (artist title : String), rows ≠ [] →
        try_get_start_time_from_playlist ⟨some rows⟩ artist title
          = ((rows.take 5).find? (rowMatches (pyNorm artist) (pyNorm title))).bind
              rowTime)
    ∧ (∀ (s₁ s₂ hh mm : String) (r₁ r₂ : List String),
        pySplitColon s₁ = hh :: mm :: r₁ → pySplitColon s₂ = hh :: mm :: r₂ →
        parsePlaylistTime s₁ = parsePlaylistTime s₂)
    ∧ (∀ (s : String) (t : PyTime), parsePlaylistTime s = some t →
        t.tz = LOCAL_TZ ∧ t.second = 0 ∧ t.microsecond = 0) := by
  refine ⟨?_, ?_, ?_, parse_time_fields⟩
  · intro rows artist title
    by_cases he : rows = []
    · subst he; rfl
    · have h5 := take_five_ne_nil he
      simp [try_get_start_time_from_playlist, he, h5, List.take_take]
  · intro rows artist title he
    simp [try_get_start_time_from_playlist, he, scanRows_eq_find]
  · intro s₁ s₂ hh mm r₁ r₂ h1 h2
    unfold parsePlaylistTime
    rw [h1, h2]
    rfl

/-- Witness for `playlist_lookup_characterization`: a six-row table where the
match sits in row 2 with time text `"14:05:33"`; the trailing-seconds clause
instantiated on `"14:05:33"` vs `"14:05"`. -/
theorem playlist_lookup_characterization_witness :
    try_get_start_time_from_playlist
        ⟨some [⟨some "13:58", some "Other", some "Tune"⟩,
               ⟨some "14:05:33", some " artist  x ", some "SONG y"⟩,
               ⟨some "13:40", some "Artist X", some "Song Y"⟩,
               ⟨some "13:31", some "A", some "B"⟩,
               ⟨some "13:22", some "C", some "D"⟩,
               ⟨some "13:13", some "Artist X", some "Song Y"⟩]⟩
        "Artist X" "Song Y"
      = ((([⟨some "13:58", some "Other", some "Tune"⟩,
            ⟨some "14:05:33", some " artist  x ", some "SONG y"⟩,
            ⟨some "13:40", some "Artist X", some "Song Y"⟩,
            ⟨some "13:31", some "A", some "B"⟩,
            ⟨some "13:22", some "C", some "D"⟩,
            ⟨some "13:13", some "Artist X", some "Song Y"⟩] :
             List PlaylistRow).take 5).find?
             (rowMatches (pyNorm "Artist X") (pyNorm "Song Y"))).bind rowTime
    ∧ parsePlaylistTime "14:05:33" = parsePlaylistTime "14:05" :=
  ⟨playlist_lookup_characterization.2.1 _ "Artist X" "Song Y" (by decide),
   playlist_lookup_characterization.2.2.1 "14:05:33" "14:05" "14" "05"
     ["33"] [] (by decide) (by decide)⟩

/-- C6: the playlist lookup is total and degrades to `none` on every failure
path: absent table, empty table, no exact match among the first five rows,
and a matched row whose time text fails to parse — in which case it returns
`none` at once, whatever rows follow. -/
theorem playlist_lookup_none_cases :
    (∀ artist title,
        try_get_start_time_from_playlist ⟨none⟩ artist title = none)
    ∧ (∀ artist title,
        try_get_start_time_from_playlist ⟨some []⟩ artist title = none)
    ∧ (∀ (rows : List PlaylistRow) (artist title : String),
        (∀ r ∈ rows.take 5,
          rowMatches (pyNorm artist) (pyNorm title) r = false) →
        try_get_start_time_from_playlist ⟨some rows⟩ artist title = none)
    ∧ (∀ (row : PlaylistRow) (rest : List PlaylistRow) (artist title : String),
        rowMatches (pyNorm artist) (pyNorm title) row = true →
        rowTime row = none →
        try_get_start_time_from_playlist ⟨some (row :: rest)⟩ artist title
          = none) := by
  refine ⟨fun _ _ => rfl, fun _ _ => rfl, ?_, ?_⟩
  · intro rows artist title hall
    by_cases he : rows = []
    · subst he; rfl
    · have hfind : (rows.take 5).find?
          (rowMatches (pyNorm artist) (pyNorm title)) = none :=
        List.find?_eq_none.mpr (fun x hx => by simp [hall x hx])
      simp [try_get_start_time_from_playlist, he, scanRows_eq_find, hfind]
  · intro row rest artist title hmat hnone
    simp [try_get_start_time_from_playlist, scanRows_eq_find,
      List.find?_cons_of_pos _ hmat, hnone]

/-- Witness for `playlist_lookup_none_cases`: a matching first row whose time
text `"garbage"` does not parse hides the parseable matching row behind it. -/
theorem playlist_lookup_none_cases_witness :
    rowMatches (pyNorm "Artist X") (pyNorm "Song Y")
      ⟨some "garbage", some "Artist X", some "Song Y"⟩ = true
    ∧ rowTime ⟨some "garbage", some "Artist X", some "Song Y"⟩ = none
    ∧ try_get_start_time_from_playlist
        ⟨some [⟨some "garbage", some "Artist X", some "Song Y"⟩,
               ⟨some "14:05", some "Artist X", some "Song Y"⟩]⟩
        "Artist X" "Song Y" = none :=
  ⟨by decide, by decide,
   playlist_lookup_none_cases.2.2.2 _ _ "Artist X" "Song Y"
     (by decide) (by decide)⟩

/-- C10: rows lacking a time/artist/title span are skipped without failure
but still occupy the five inspected slots: with five malformed rows in
front, no later row is ever found, matching or not. -/
theorem malformed_rows_consume_slots (bad rest : List PlaylistRow)
    (artist title : String) (hlen : bad.length = 5)
    (hbad : ∀ r ∈ bad,
      r.time_span = none ∨ r.artist_span = none ∨ r.title_span = none) :
    try_get_start_time_from_playlist ⟨some (bad ++ rest)⟩ artist title
      = none := by
  have hne : bad ++ rest ≠ [] := by
    intro hc
    have := congrArg List.length hc
    simp [hlen] at this
  have htake : (bad ++ rest).take 5 = bad := by
    rw [← hlen]
    exact List.take_left _ _
  have hfind : bad.find? (rowMatches (pyNorm artist) (pyNorm title)) = none := by
    apply List.find?_eq_none.mpr
    intro r hr
    have hb := hbad r hr
    rcases r with ⟨ot, oa, oti⟩
    rcases ot with _ | ts <;> rcases oa with _ | a <;> rcases oti with _ | t <;>
      simp [rowMatches] <;> simp_all
  simp [try_get_start_time_from_playlist, hne, htake, scanRows_eq_find, hfind]

/-- Witness for `malformed_rows_consume_slots`: five rows each missing a
span, then a fully matching, parseable row — lookup still yields `none`. -/
theorem malformed_rows_consume_slots_witness :
    ([⟨none, some "Artist X", some "Song Y"⟩,
      ⟨some "14:05", none, some "Song Y"⟩,
      ⟨some "14:05", some "Artist X", none⟩,
      ⟨none, none, none⟩,
      ⟨none, some "Artist X", none⟩] : List PlaylistRow).length = 5
    ∧ try_get_start_time_from_playlist
        ⟨some ([⟨none, some "Artist X", some "Song Y"⟩,
                ⟨some "14:05", none, some "Song Y"⟩,
                ⟨some "14:05", some "Artist X", none⟩,
                ⟨none, none, none⟩,
                ⟨none, some "Artist X", none⟩]
          ++ [⟨some "14:05", some "Artist X", some "Song Y"⟩])⟩
        "Artist X" "Song Y" = none :=
  ⟨by decide,
   malformed_rows_consume_slots _ _ "Artist X" "Song Y" (by decide)
     (by decide)⟩

/-- C7: when the dynamic extraction yields a candidate but no authoritative
start time is found (no static document, or the playlist lookup returned
`none` for any of its reasons), the resolution still returns a `Song`, with
`start_time` equal to the current local time with seconds and microseconds
zeroed, tagged with the station's local time zone. -/
theorem fallback_start_time_on_no_authoritative (view : RenderedView)
    (soup : Option Soup) (now_local : PyTime) (ts : Nat) (st : AppState)
    (c : OnAirCandidate)
    (hc : scrape_onair_dynamic view = .ok (some c))
    (hnone : (soup.bind fun s =>
        try_get_start_time_from_playlist s c.interpreters c.title) = none) :
    (now_playing (.ok view) soup now_local ts st).1
      = .song ⟨RADIO_NAME, c.interpreters, c.title,
          ⟨now_local.hour, now_local.minute, 0, 0, LOCAL_TZ⟩, ts⟩ := by
  rcases soup with _ | s
  · simp [now_playing, hc]
  · simp only [Option.some_bind] at hnone
    simp [now_playing, hc, hnone]

/-- Witness for `fallback_start_time_on_no_authoritative`: a valid candidate
with the static document fetch failed entirely (`soup = none`). -/
theorem fallback_start_time_on_no_authoritative_witness :
    (now_playing (.ok ⟨some ⟨some "Artist X", some "Song Y"⟩⟩) none
        ⟨9, 41, 27, 123456, LOCAL_TZ⟩ 0 initial_state).1
      = .song ⟨RADIO_NAME, "Artist X", "Song Y", ⟨9, 41, 0, 0, LOCAL_TZ⟩, 0⟩ :=
  fallback_start_time_on_no_authoritative ⟨some ⟨some "Artist X", some "Song Y"⟩⟩
    none ⟨9, 41, 27, 123456, LOCAL_TZ⟩ 0 initial_state ⟨"Artist X", "Song Y"⟩
    rfl rfl

/-- C8: with the on-air block and both sub-fields located, the extractor
returns `None` exactly when the normalized title is one of the fixed silence
phrases or either stripped field is empty; consequently any candidate it
does return has non-empty fields and a non-silence title. -/
theorem onair_none_iff_silence_or_empty :
    (∀ (i t : String),
        scrape_onair_dynamic ⟨some ⟨some i, some t⟩⟩ = .ok none
          ↔ (pyNorm (pyStrip t) ∈ silence_patterns
              ∨ pyStrip i = "" ∨ pyStrip t = ""))
    ∧ (∀ (view : RenderedView) (c : OnAirCandidate),
        scrape_onair_dynamic view = .ok (some c) →
          c.interpreters ≠ "" ∧ c.title ≠ ""
            ∧ pyNorm c.title ∉ silence_patterns) := by
  constructor
  · intro i t
    by_cases hcond : pyNorm (pyStrip t) ∈ silence_patterns
        ∨ pyStrip i = "" ∨ pyStrip t = "" <;>
      simp [scrape_onair_dynamic, hcond]
  · intro view c h
    rcases view with ⟨_ | ⟨oi, ot⟩⟩
    · simp [scrape_onair_dynamic] at h
    · rcases oi with _ | i <;> rcases ot with _ | t <;>
        simp [scrape_onair_dynamic] at h
      by_cases hcond : pyNorm (pyStrip t) ∈ silence_patterns
          ∨ pyStrip i = "" ∨ pyStrip t = ""
      · simp [hcond] at h
      · simp [hcond] at h
        push_neg at hcond
        subst h
        exact ⟨hcond.2.1, hcond.2.2, hcond.1⟩

/-- Witness for `onair_none_iff_silence_or_empty`: a silence-phrase title
with messy casing-irrelevant whitespace yields `None`. -/
theorem onair_none_iff_silence_or_empty_witness :
    scrape_onair_dynamic
        ⟨some ⟨some "Madonna", some " nehrá  žiadna pesnička "⟩⟩ = .ok none :=
  (onair_none_iff_silence_or_empty.1 "Madonna"
    " nehrá  žiadna pesnička ").mpr (Or.inl (by decide))

/-- C9 counterexample: with the on-air region absent from the rendered view,
the resolution yields the "upstream unavailable" Silence (the timeout from
`wait.until` escapes `scrape_onair_dynamic`), not the "nothing is playing"
one the claim asserts. -/
theorem onair_region_absent_counterexample :
    (now_playing (.ok ⟨none⟩) none ⟨0, 0, 0, 0, LOCAL_TZ⟩ 0 initial_state).1
        = .silence ⟨RADIO_NAME, false, "Upstream page unavailable.", 0⟩
      ∧ (now_playing (.ok ⟨none⟩) none ⟨0, 0, 0, 0, LOCAL_TZ⟩ 0
            initial_state).1
        ≠ .silence ⟨RADIO_NAME, false, "Nothing is playing right now.", 0⟩ :=
  ⟨rfl, by decide⟩

/-- C9 amended: when the required artist/title sub-fields cannot be located
inside a present on-air block, the extractor returns `None` and the
resolution yields the "nothing is playing" Silence; but when the region
itself is absent within the bounded wait, the timeout propagates and the
resolution yields the "upstream unavailable" Silence.  PlayingState becomes
false either way. -/
theorem onair_region_outcomes :
    (∀ (view : RenderedView), view.onair_block = none →
        scrape_onair_dynamic view = .error .timeout
        ∧ ∀ (soup : Option Soup) (now_local : PyTime) (ts : Nat)
            (st : AppState),
            (now_playing (.ok view) soup now_local ts st).1
              = .silence ⟨RADIO_NAME, false, "Upstream page unavailable.", ts⟩
            ∧ (now_playing (.ok view) soup now_local ts st).2.is_radio_playing
              = false)
    ∧ (∀ (blk : OnAirBlock), blk.interpret = none ∨ blk.titul = none →
        scrape_onair_dynamic ⟨some blk⟩ = .ok none
        ∧ ∀ (soup : Option Soup) (now_local : PyTime) (ts : Nat)
            (st : AppState),
            (now_playing (.ok ⟨some blk⟩) soup now_local ts st).1
              = .silence ⟨RADIO_NAME, false, "Nothing is playing right now.", ts⟩
            ∧ (now_playing (.ok ⟨some blk⟩) soup now_local ts
                st).2.is_radio_playing = false) := by
  constructor
  · intro view hv
    rcases view with ⟨ob⟩
    cases hv
    exact ⟨rfl, fun soup now_local ts st => ⟨rfl, rfl⟩⟩
  · intro blk hblk
    rcases blk with ⟨oi, ot⟩
    have hsc : scrape_onair_dynamic ⟨some ⟨oi, ot⟩⟩ = .ok none := by
      rcases oi with _ | i <;> rcases ot with _ | t <;>
        first
          | rfl
          | (rcases hblk with h | h <;> simp at h)
    refine ⟨hsc, fun soup now_local ts st => ?_⟩
    constructor <;> simp [now_playing, hsc]

/-- Witness for `onair_region_outcomes`: the absent region and a block
missing its title span, at concrete inputs. -/
theorem onair_region_outcomes_witness :
    ((now_playing (.ok ⟨none⟩) none ⟨1, 2, 3, 4, LOCAL_TZ⟩ 7
          initial_state).1
        = .silence ⟨RADIO_NAME, false, "Upstream page unavailable.", 7⟩
      ∧ (now_playing (.ok ⟨none⟩) none ⟨1, 2, 3, 4, LOCAL_TZ⟩ 7
            initial_state).2.is_radio_playing = false)
    ∧ ((now_playing (.ok ⟨some ⟨some "Artist X", none⟩⟩) none
          ⟨1, 2, 3, 4, LOCAL_TZ⟩ 7 initial_state).1
        = .silence ⟨RADIO_NAME, false, "Nothing is playing right now.", 7⟩
      ∧ (now_playing (.ok ⟨some ⟨some "Artist X", none⟩⟩) none
            ⟨1, 2, 3, 4, LOCAL_TZ⟩ 7 initial_state).2.is_radio_playing
        = false) :=
  ⟨(onair_region_outcomes.1 ⟨none⟩ rfl).2 none ⟨1, 2, 3, 4, LOCAL_TZ⟩ 7
      initial_state,
   (onair_region_outcomes.2 ⟨some "Artist X", none⟩ (Or.inr rfl)).2 none
      ⟨1, 2, 3, 4, LOCAL_TZ⟩ 7 initial_state⟩
